import Mathlib

/-!
Shallow embedding of the cluster-agent layer of libnetwork (`agent.go`).

Pure data is modelled by Lean structures; the side effects of each operation
(distributed-store calls, service-binding calls, driver notifications,
name-record updates, log lines) are made explicit as a trace of `Effect`
values returned alongside the Go return value.  Outcomes of external
collaborators (the networkdb store, the service-binding bookkeeping) are
supplied by an `Oracle` so that error paths of the source are faithfully
reachable.
-/

/-- Port configuration carried by an endpoint / serialized into an
`EndpointRecord` (wire schema: protocol, published port, target port). -/
structure PortConfig where
  protocol : Nat
  publishedPort : Nat
  targetPort : Nat
deriving DecidableEq, Repr

/-- The wire record stored under the reserved table name "endpoint_table"
(`agent.proto`): name, service name/id, textual virtual IP, ingress ports,
textual endpoint IP. -/
structure EndpointRecord where
  Name : String
  ServiceName : String
  ServiceID : String
  VirtualIP : String
  IngressPorts : List PortConfig
  EndpointIP : String
deriving DecidableEq, Repr

/-- The all-empty record: what protobuf decodes from an empty byte string. -/
def emptyEndpointRecord : EndpointRecord :=
  { Name := "", ServiceName := "", ServiceID := "", VirtualIP := "",
    IngressPorts := [], EndpointIP := "" }

/-- A table value (a `[]byte` in the source) at the serialization boundary:
either bytes that are the protobuf encoding of an `EndpointRecord`, or raw
driver-owned / malformed bytes. -/
inductive TableValue where
  | epRecordBytes (r : EndpointRecord)
  | raw (bs : List Nat)
deriving DecidableEq, Repr

/-- Model of `proto.Marshal` of an `EndpointRecord` (never fails for this record type). -/
def protoMarshal (r : EndpointRecord) : TableValue := TableValue.epRecordBytes r

/-- Model of `proto.Unmarshal` into an `EndpointRecord`: encoded records decode to
themselves, the empty byte string decodes to the all-empty record (protobuf
semantics), other raw bytes are malformed. -/
def protoUnmarshal : TableValue → Option EndpointRecord
  | TableValue.epRecordBytes r => some r
  | TableValue.raw bs => if bs.isEmpty then some emptyEndpointRecord else none

/-- Split a character list at the dots (helper for the `net.ParseIP`
model). -/
def splitDots : List Char → List (List Char)
  | [] => [[]]
  | ch :: rest =>
    let r := splitDots rest
    if ch = '.' then [] :: r
    else (ch :: r.headD []) :: r.tail

/-- Numeric value of a decimal digit string (helper for the `net.ParseIP`
model). -/
def octetVal (p : List Char) : Nat :=
  p.foldl (fun a ch => a * 10 + (ch.toNat - 48)) 0

/-- A valid dotted-quad component: nonempty, all digits, at most three of
them, value at most 255. -/
def validOctet (p : List Char) : Bool :=
  !p.isEmpty && p.all Char.isDigit && p.length ≤ 3 && octetVal p ≤ 255

/-- Model of Go `net.ParseIP` at the boundary: a string parses iff it is a
dotted quad of four decimal components, each between 0 and 255.  (`none`
models the `nil` return of `net.ParseIP`.) -/
def parseIP (s : String) : Option String :=
  let parts := splitDots s.data
  if parts.length == 4 && parts.all validOctet then some s else none

/-- Rendering of `net.IP.String()` for an optional IP: Go renders a nil IP as "<nil>". -/
def ipString : Option String → String
  | some s => s
  | none => "<nil>"

/-- Datastore scope of a network's driver (`datastore.LocalScope` /
`datastore.GlobalScope`). -/
inductive Scope where
  | localScope
  | globalScope
deriving DecidableEq, Repr

/-- Cluster-relevant fields of a `network`:  `driverScope` models
`n.driverScope()`, `driverOk` models whether `n.driver(false)` resolves. -/
structure Network where
  id : String
  driverScope : Scope
  ingress : Bool
  driverTables : List String
  networkType : String
  driverOk : Bool
deriving DecidableEq, Repr

/-- One driver-table entry carried by an endpoint's join information. -/
structure TableEntry where
  tableName : String
  key : String
  value : TableValue
deriving DecidableEq, Repr

/-- The part of `endpointJoinInfo` used by the agent. -/
structure EndpointJoinInfo where
  driverTableEntries : List TableEntry
deriving DecidableEq, Repr

/-- Cluster-relevant fields of an `endpoint`.  `anonymous` models
`ep.isAnonymous()`, `ifaceAddr` models `ep.Iface().Address()` (the IP,
`none` when no address is resolved), `joinInfo` is the nilable pointer to
the join information. -/
structure Endpoint where
  id : String
  name : String
  network : Network
  anonymous : Bool
  svcName : String
  svcID : String
  virtualIP : Option String
  ingressPorts : List PortConfig
  ifaceAddr : Option String
  joinInfo : Option EndpointJoinInfo
deriving DecidableEq, Repr

/-- The `agent` struct: bind address, the per-network lists of driver-watch
cancellation handles (handles are abstract tokens), and a counter supplying
fresh tokens. -/
structure Agent where
  bindAddr : String
  driverCancelFuncs : List (String × List Nat)
  nextToken : Nat
deriving DecidableEq, Repr

/-- The cluster-relevant fields of the `controller`: whether it is configured
for clustering (`c.isAgent()`), the optional live agent, and its networks
(for `NetworkByID`). -/
structure Controller where
  cfgAgent : Bool
  agent : Option Agent
  networks : List Network
deriving DecidableEq, Repr

/-- Outcomes of the external collaborators: a `some e` is the error the call
returns, `none` means the call succeeds. -/
structure Oracle where
  createEntryErr : String → String → String → Option String
  deleteEntryErr : String → String → String → Option String
  addServiceBindingErr : Option String
  rmServiceBindingErr : Option String
  joinNetworkErr : Option String
  leaveNetworkErr : Option String

/-- Kind of a driver notification (`driverapi.EventType`). -/
inductive EventType where
  | create
  | delete
deriving DecidableEq, Repr

/-- Observable actions of the agent code: distributed-store calls, watch
registrations / cancellations, service-binding and name-record calls, driver
notifications, network lookups, payload deserializations, and error logs. -/
inductive Effect where
  | storeJoinNetwork (nid : String)
  | storeLeaveNetwork (nid : String)
  | storeCreateEntry (table : String) (nid : String) (key : String) (value : TableValue)
  | storeDeleteEntry (table : String) (nid : String) (key : String)
  | storeWatch (table : String) (nid : String) (key : String)
  | cancelWatch (token : Nat)
  | addServiceBinding (svcName : String) (svcID : String) (nid : String) (eid : String)
      (vip : Option String) (ingressPorts : List PortConfig) (ip : String)
  | rmServiceBinding (svcName : String) (svcID : String) (nid : String) (eid : String)
      (vip : Option String) (ingressPorts : List PortConfig) (ip : String)
  | addSvcRecords (nid : String) (name : String) (ip : String)
  | deleteSvcRecords (nid : String) (name : String) (ip : String)
  | driverNotify (etype : EventType) (nid : String) (table : String) (key : String)
      (value : TableValue)
  | netLookup (nid : String)
  | unmarshalPayload (value : TableValue)
  | logError (tag : String)
deriving DecidableEq, Repr

/-- Result of a Go function that may hit a nil-pointer dereference:
`panicked` is the runtime panic, `ret a` is a normal return of `a`. -/
inductive Outcome (α : Type) where
  | panicked
  | ret (a : α)
deriving DecidableEq, Repr

/-- Source `network.isClusterEligible`: global driver scope and a live agent. -/
def Network.isClusterEligible (n : Network) (c : Controller) : Bool :=
  if n.driverScope ≠ Scope.globalScope then false
  else if c.agent = none then false
  else true

/-- Source `network.joinCluster`. -/
def Network.joinCluster (n : Network) (c : Controller) (o : Oracle) :
    Option String × List Effect :=
  if !(n.isClusterEligible c) then (none, [])
  else (o.joinNetworkErr, [Effect.storeJoinNetwork n.id])

/-- Source `network.leaveCluster`. -/
def Network.leaveCluster (n : Network) (c : Controller) (o : Oracle) :
    Option String × List Effect :=
  if !(n.isClusterEligible c) then (none, [])
  else (o.leaveNetworkErr, [Effect.storeLeaveNetwork n.id])

/-- The `for _, te := range ... CreateEntry` loop of `endpoint.addToCluster`:
abort on first error, no rollback. -/
def createEntriesLoop (o : Oracle) (nid : String) :
    List TableEntry → Option String × List Effect
  | [] => (none, [])
  | te :: rest =>
    let eff := Effect.storeCreateEntry te.tableName nid te.key te.value
    match o.createEntryErr te.tableName nid te.key with
    | some e => (some e, [eff])
    | none =>
      let p := createEntriesLoop o nid rest
      (p.1, eff :: p.2)

/-- Source `endpoint.addToCluster`.  The final loop ranges over
`ep.joinInfo.driverTableEntries` without a nil guard, so a nil `joinInfo`
panics (`Outcome.panicked`). -/
def Endpoint.addToCluster (ep : Endpoint) (c : Controller) (o : Oracle) :
    Outcome (Option String) × List Effect :=
  let n := ep.network
  if !(n.isClusterEligible c) then (Outcome.ret none, [])
  else
    if !ep.anonymous && ep.ifaceAddr.isSome then
      let addr := ep.ifaceAddr.getD ""
      let ingressPorts : List PortConfig :=
        if ep.svcID != "" && n.ingress then ep.ingressPorts else []
      let bindTr : List Effect :=
        if ep.svcID != "" then
          [Effect.addServiceBinding ep.svcName ep.svcID n.id ep.id ep.virtualIP
            ingressPorts addr]
        else []
      if ep.svcID != "" && o.addServiceBindingErr.isSome then
        (Outcome.ret o.addServiceBindingErr, bindTr)
      else
        let buf := protoMarshal
          { Name := ep.name, ServiceName := ep.svcName, ServiceID := ep.svcID,
            VirtualIP := ipString ep.virtualIP,
            IngressPorts := ingressPorts, EndpointIP := addr }
        let epEff := Effect.storeCreateEntry "endpoint_table" n.id ep.id buf
        match o.createEntryErr "endpoint_table" n.id ep.id with
        | some e => (Outcome.ret (some e), bindTr ++ [epEff])
        | none =>
          match ep.joinInfo with
          | none => (Outcome.panicked, bindTr ++ [epEff])
          | some ji =>
            let p := createEntriesLoop o n.id ji.driverTableEntries
            (Outcome.ret p.1, bindTr ++ [epEff] ++ p.2)
    else
      match ep.joinInfo with
      | none => (Outcome.panicked, [])
      | some ji =>
        let p := createEntriesLoop o n.id ji.driverTableEntries
        (Outcome.ret p.1, p.2)

/-- The `for _, te := range ... DeleteEntry` loop of
`endpoint.deleteFromCluster`. -/
def deleteEntriesLoop (o : Oracle) (nid : String) :
    List TableEntry → Option String × List Effect
  | [] => (none, [])
  | te :: rest =>
    let eff := Effect.storeDeleteEntry te.tableName nid te.key
    match o.deleteEntryErr te.tableName nid te.key with
    | some e => (some e, [eff])
    | none =>
      let p := deleteEntriesLoop o nid rest
      (p.1, eff :: p.2)

/-- Source `endpoint.deleteFromCluster`.  Note the nil-`joinInfo` guard sits after
the non-anonymous block, so the function never panics. -/
def Endpoint.deleteFromCluster (ep : Endpoint) (c : Controller) (o : Oracle) :
    Outcome (Option String) × List Effect :=
  let n := ep.network
  if !(n.isClusterEligible c) then (Outcome.ret none, [])
  else
    let rmTr : List Effect :=
      if !ep.anonymous && (ep.svcID != "") && ep.ifaceAddr.isSome then
        [Effect.rmServiceBinding ep.svcName ep.svcID n.id ep.id ep.virtualIP
          (if n.ingress then ep.ingressPorts else []) (ep.ifaceAddr.getD "")]
      else []
    if !ep.anonymous then
      if (ep.svcID != "") && ep.ifaceAddr.isSome && o.rmServiceBindingErr.isSome then
        (Outcome.ret o.rmServiceBindingErr, rmTr)
      else
        let epEff := Effect.storeDeleteEntry "endpoint_table" n.id ep.id
        match o.deleteEntryErr "endpoint_table" n.id ep.id with
        | some e => (Outcome.ret (some e), rmTr ++ [epEff])
        | none =>
          match ep.joinInfo with
          | none => (Outcome.ret none, rmTr ++ [epEff])
          | some ji =>
            let p := deleteEntriesLoop o n.id ji.driverTableEntries
            (Outcome.ret p.1, rmTr ++ [epEff] ++ p.2)
    else
      match ep.joinInfo with
      | none => (Outcome.ret none, [])
      | some ji =>
        let p := deleteEntriesLoop o n.id ji.driverTableEntries
        (Outcome.ret p.1, p.2)

/-- Lookup in the `driverCancelFuncs` map (Go map read: zero value `nil`
slice when the key is absent). -/
def mapGet (m : List (String × List Nat)) (k : String) : List Nat :=
  match m.find? (fun p => p.1 == k) with
  | some p => p.2
  | none => []

/-- Update/insert in the `driverCancelFuncs` map. -/
def mapSet (m : List (String × List Nat)) (k : String) (v : List Nat) :
    List (String × List Nat) :=
  if m.any (fun p => p.1 == k) then
    m.map (fun p => if p.1 == k then (k, v) else p)
  else m ++ [(k, v)]

/-- Go `delete(m, k)` on the `driverCancelFuncs` map. -/
def mapErase (m : List (String × List Nat)) (k : String) :
    List (String × List Nat) :=
  m.filter (fun p => p.1 != k)

/-- One current entry of the distributed store, as visited by a table walk:
owning table, owning network scope id, key, value. -/
structure StoreEntry where
  table : String
  nid : String
  key : String
  value : TableValue
deriving DecidableEq, Repr

/-- The distributed store's current contents, in walk order. -/
abbrev Store := List StoreEntry

/-- Modelled from the spec: `store.WalkTable(table, visit(scopeID, key,
value) -> stopBool)` — the networkdb implementation is not under src/.  The
walk visits every current entry of the given table, across all network
scopes, in store order; the agent's visitor always returns false (never
stops), so the walk is the filtered entry list. -/
def walkTable (s : Store) (table : String) : List StoreEntry :=
  s.filter (fun e => e.table == table)

/-- The per-table body of `network.addDriverWatches`, recursing over the
driver-declared table names while threading the controller (whose agent map
records the cancellation handles). -/
def addDriverWatchesLoop (n : Network) (s : Store) :
    List String → Controller → Controller × List Effect
  | [], c => (c, [])
  | tableName :: rest, c =>
    match c.agent with
    | none => (c, [])
    | some ag =>
      let tok := ag.nextToken
      let ag' : Agent :=
        { ag with
          driverCancelFuncs :=
            mapSet ag.driverCancelFuncs n.id (mapGet ag.driverCancelFuncs n.id ++ [tok]),
          nextToken := tok + 1 }
      let c' : Controller := { c with agent := some ag' }
      let watchEff := Effect.storeWatch tableName n.id ""
      if !n.driverOk then
        (c', [watchEff, Effect.logError "driver-resolve"])
      else
        let walkEffs := (walkTable s tableName).map
          (fun e => Effect.driverNotify EventType.create n.id tableName e.key e.value)
        let p := addDriverWatchesLoop n s rest c'
        (p.1, watchEff :: walkEffs ++ p.2)

/-- Source `network.addDriverWatches`: for each driver table, register a watch,
record its cancellation handle, and walk the table's current contents
delivering synthetic Create notifications; a driver-resolution failure logs
and returns early. -/
def Network.addDriverWatches (n : Network) (c : Controller) (s : Store) :
    Controller × List Effect :=
  if !(n.isClusterEligible c) then (c, [])
  else addDriverWatchesLoop n s n.driverTables c

/-- Source `network.cancelDriverWatches`: remove the network's recorded handles
from the map and invoke each. -/
def Network.cancelDriverWatches (n : Network) (c : Controller) :
    Controller × List Effect :=
  if !(n.isClusterEligible c) then (c, [])
  else
    match c.agent with
    | none => (c, [])
    | some ag =>
      let cancelFuncs := mapGet ag.driverCancelFuncs n.id
      let ag' : Agent := { ag with driverCancelFuncs := mapErase ag.driverCancelFuncs n.id }
      ({ c with agent := some ag' }, cancelFuncs.map Effect.cancelWatch)

/-- The recorded driver-watch handles of a network, as read from a
controller. -/
def handlesOf (c : Controller) (nid : String) : List Nat :=
  match c.agent with
  | some ag => mapGet ag.driverCancelFuncs nid
  | none => []

/-- A table event delivered on a watch channel (`networkdb.CreateEvent` /
`DeleteEvent` / `UpdateEvent`), carrying table, network id, key and value. -/
inductive TableEvent where
  | create (table : String) (nid : String) (key : String) (value : TableValue)
  | delete (table : String) (nid : String) (key : String) (value : TableValue)
  | update (table : String) (nid : String) (key : String) (value : TableValue)
deriving DecidableEq, Repr

/-- The value carried by a table event. -/
def eventValue : TableEvent → TableValue
  | TableEvent.create _ _ _ v => v
  | TableEvent.delete _ _ _ v => v
  | TableEvent.update _ _ _ v => v

/-- Source `controller.handleEpTableEvent`.  Note the `UpdateEvent` arm of the
source's type switch only logs: the local variables keep their zero values
(`nid = ""`, `value = nil`) and control falls through to the network
lookup. -/
def Controller.handleEpTableEvent (c : Controller) (o : Oracle) (ev : TableEvent) :
    List Effect :=
  let sw : String × String × TableValue × Bool × List Effect :=
    match ev with
    | TableEvent.create _ n k v => (n, k, v, true, [])
    | TableEvent.delete _ n k v => (n, k, v, false, [])
    | TableEvent.update _ _ _ _ =>
      ("", "", TableValue.raw [], false, [Effect.logError "unexpected-update"])
  let nid := sw.1
  let eid := sw.2.1
  let value := sw.2.2.1
  let isAdd := sw.2.2.2.1
  let preTr := sw.2.2.2.2
  let lookupEff := Effect.netLookup nid
  match c.networks.find? (fun nw => nw.id == nid) with
  | none => preTr ++ [lookupEff, Effect.logError "network-not-found"]
  | some nw =>
    let unmEff := Effect.unmarshalPayload value
    match protoUnmarshal value with
    | none => preTr ++ [lookupEff, unmEff, Effect.logError "unmarshal-failed"]
    | some epRec =>
      let name := epRec.Name
      let svcName := epRec.ServiceName
      let svcID := epRec.ServiceID
      let vip := parseIP epRec.VirtualIP
      let ip := parseIP epRec.EndpointIP
      let ingressPorts := epRec.IngressPorts
      if name == "" || ip.isNone then
        preTr ++ [lookupEff, unmEff, Effect.logError "invalid-name-ip"]
      else
        let ipS := ip.getD ""
        if isAdd then
          if svcID != "" then
            let bindEff := Effect.addServiceBinding svcName svcID nid eid vip ingressPorts ipS
            if o.addServiceBindingErr.isSome then
              preTr ++ [lookupEff, unmEff, bindEff, Effect.logError "binding-failed"]
            else
              preTr ++ [lookupEff, unmEff, bindEff, Effect.addSvcRecords nw.id name ipS]
          else
            preTr ++ [lookupEff, unmEff, Effect.addSvcRecords nw.id name ipS]
        else
          if svcID != "" then
            let bindEff := Effect.rmServiceBinding svcName svcID nid eid vip ingressPorts ipS
            if o.rmServiceBindingErr.isSome then
              preTr ++ [lookupEff, unmEff, bindEff, Effect.logError "binding-failed"]
            else
              preTr ++ [lookupEff, unmEff, bindEff, Effect.deleteSvcRecords nw.id name ipS]
          else
            preTr ++ [lookupEff, unmEff, Effect.deleteSvcRecords nw.id name ipS]

/-- Source `controller.handleTableEvents`: the dispatch loop over a watch channel,
modelled on the finite sequence of events delivered before the channel
closes; the handler is invoked synchronously on each event in order. -/
def handleTableEvents (handler : TableEvent → List Effect) :
    List TableEvent → List Effect
  | [] => []
  | ev :: rest => handler ev ++ handleTableEvents handler rest

/-- One address of a network interface as seen by `getBindAddr`: whether the
Go type assertion to `*net.IPNet` succeeds, whether the IP is link-local
unicast, and the IP's textual form. -/
structure IfAddr where
  isIPNet : Bool
  linkLocal : Bool
  ip : String
deriving DecidableEq, Repr

/-- The OS environment of agent creation: interface lookup (an error models
both a missing interface and a failing `Addrs()` call) and the outcome of
`networkdb.New`. -/
structure Env where
  interfaces : String → Except String (List IfAddr)
  newDBErr : Option String

/-- Source `getBindAddr`: first non-link-local unicast `*net.IPNet` address of the
named interface. -/
def getBindAddr (env : Env) (ifaceName : String) : Except String String :=
  match env.interfaces ifaceName with
  | Except.error e => Except.error e
  | Except.ok addrs =>
    match addrs.find? (fun a => a.isIPNet && !a.linkLocal) with
    | some a => Except.ok a.ip
    | none => Except.error "failed to get bind address"

/-- Source `resolveAddr`: a parseable IP address passes through unchanged,
otherwise the string is treated as an interface name. -/
def resolveAddr (env : Env) (addrOrInterface : String) : Except String String :=
  if (parseIP addrOrInterface).isSome then Except.ok addrOrInterface
  else getBindAddr env addrOrInterface

/-- Source `controller.agentInit`: returns the possibly-updated controller, the Go
error, and the trace (the endpoint-table watch registration on success). -/
def Controller.agentInit (c : Controller) (env : Env) (bindAddrOrInterface : String) :
    Controller × Option String × List Effect :=
  if !c.cfgAgent then (c, none, [])
  else
    match resolveAddr env bindAddrOrInterface with
    | Except.error e => (c, some e, [])
    | Except.ok bindAddr =>
      match env.newDBErr with
      | some e => (c, some e, [])
      | none =>
        ({ c with agent := some { bindAddr := bindAddr, driverCancelFuncs := [], nextToken := 0 } },
         none, [Effect.storeWatch "endpoint_table" "" ""])

/-- A key of the distributed store: (table, network scope id, record key). -/
abbrev StoreKey := String × String × String

/-- Modelled from the spec: the distributed store's state as a map from
(table, scope-id, key) to the stored value — `store.CreateEntry` /
`store.DeleteEntry` semantics of §6; the networkdb implementation is not
under src/. -/
def StoreMap := StoreKey → Option TableValue

/-- Apply one effect to the store state: creates insert, deletes remove,
everything else leaves the store unchanged. -/
def storeApply (m : StoreMap) : Effect → StoreMap
  | Effect.storeCreateEntry t n k v => fun q => if q = (t, n, k) then some v else m q
  | Effect.storeDeleteEntry t n k => fun q => if q = (t, n, k) then none else m q
  | _ => m

/-- Apply a trace of effects to the store state, left to right. -/
def storeApplyAll (m : StoreMap) (tr : List Effect) : StoreMap :=
  tr.foldl storeApply m

/-- Whether an effect is a store creation of the given key. -/
def effCreates (q : StoreKey) : Effect → Bool
  | Effect.storeCreateEntry t n k _ => decide ((t, n, k) = q)
  | _ => false

/-- Whether an effect is a store deletion of the given key. -/
def effDeletes (q : StoreKey) : Effect → Bool
  | Effect.storeDeleteEntry t n k => decide ((t, n, k) = q)
  | _ => false

/-- Whether an effect is a service-binding call. -/
def isBindingEffect : Effect → Bool
  | Effect.addServiceBinding _ _ _ _ _ _ _ => true
  | Effect.rmServiceBinding _ _ _ _ _ _ _ => true
  | _ => false

/-- Whether an effect is a name-record mutation. -/
def isSvcRecordEffect : Effect → Bool
  | Effect.addSvcRecords _ _ _ => true
  | Effect.deleteSvcRecords _ _ _ => true
  | _ => false

/-- An endpoint-table payload the handler must drop: bytes that do not
deserialize, or that deserialize to a record with an empty name or an
unparsable endpoint IP. -/
def malformedPayload (v : TableValue) : Prop :=
  protoUnmarshal v = none ∨
    ∃ r, protoUnmarshal v = some r ∧ (r.Name = "" ∨ parseIP r.EndpointIP = none)

/-- The endpoint-table creation effect of `addToCluster`'s success path. -/
def epTableCreateEff (ep : Endpoint) : Effect :=
  Effect.storeCreateEntry "endpoint_table" ep.network.id ep.id
    (protoMarshal
      { Name := ep.name, ServiceName := ep.svcName, ServiceID := ep.svcID,
        VirtualIP := ipString ep.virtualIP,
        IngressPorts :=
          if ep.svcID != "" && ep.network.ingress then ep.ingressPorts else [],
        EndpointIP := ep.ifaceAddr.getD "" })

/-- The endpoint-table deletion effect of `deleteFromCluster`. -/
def epTableDeleteEff (ep : Endpoint) : Effect :=
  Effect.storeDeleteEntry "endpoint_table" ep.network.id ep.id

/-- The service-binding registration of `addToCluster` (empty when no
service id). -/
def addBindEff (ep : Endpoint) : List Effect :=
  if ep.svcID != "" then
    [Effect.addServiceBinding ep.svcName ep.svcID ep.network.id ep.id ep.virtualIP
      (if ep.svcID != "" && ep.network.ingress then ep.ingressPorts else [])
      (ep.ifaceAddr.getD "")]
  else []

/-- The non-driver-table prefix of `addToCluster`'s success trace. -/
def addHead (ep : Endpoint) : List Effect :=
  if !ep.anonymous && ep.ifaceAddr.isSome then addBindEff ep ++ [epTableCreateEff ep]
  else []

/-- The service-binding removal of `deleteFromCluster` (empty when no
service id or no resolved address). -/
def rmBindEff (ep : Endpoint) : List Effect :=
  if (ep.svcID != "") && ep.ifaceAddr.isSome then
    [Effect.rmServiceBinding ep.svcName ep.svcID ep.network.id ep.id ep.virtualIP
      (if ep.network.ingress then ep.ingressPorts else []) (ep.ifaceAddr.getD "")]
  else []

/-- The non-driver-table prefix of `deleteFromCluster`'s success trace. -/
def delHead (ep : Endpoint) : List Effect :=
  if !ep.anonymous then rmBindEff ep ++ [epTableDeleteEff ep] else []

/-! Concrete fixtures used by the witnesses. -/

/-- A global-scope network fixture. -/
def nGlobal : Network :=
  { id := "n1", driverScope := Scope.globalScope, ingress := false,
    driverTables := ["ovtable"], networkType := "overlay", driverOk := true }

/-- A local-scope network fixture. -/
def nLocal : Network :=
  { id := "n2", driverScope := Scope.localScope, ingress := false,
    driverTables := [], networkType := "bridge", driverOk := true }

/-- An agent fixture with no recorded driver watches. -/
def agent0 : Agent := { bindAddr := "10.0.0.1", driverCancelFuncs := [], nextToken := 0 }

/-- A controller with a live agent. -/
def cAgent : Controller := { cfgAgent := true, agent := some agent0, networks := [nGlobal] }

/-- A controller with no agent. -/
def cNoAgent : Controller := { cfgAgent := false, agent := none, networks := [nLocal] }

/-- An oracle on which every collaborator call succeeds. -/
def oOk : Oracle :=
  { createEntryErr := fun _ _ _ => none, deleteEntryErr := fun _ _ _ => none,
    addServiceBindingErr := none, rmServiceBindingErr := none,
    joinNetworkErr := none, leaveNetworkErr := none }

/-- An endpoint on the local-scope network. -/
def epLocal : Endpoint :=
  { id := "e0", name := "web", network := nLocal, anonymous := false,
    svcName := "", svcID := "", virtualIP := none, ingressPorts := [],
    ifaceAddr := some "10.0.0.5", joinInfo := some { driverTableEntries := [] } }

/-! Theorems. -/

/-- C1: `isClusterEligible` is true iff the network's driver scope is global
and the controller has a live agent; whenever it is false, `joinCluster`,
`leaveCluster`, `addToCluster`, `deleteFromCluster`, `addDriverWatches` and
`cancelDriverWatches` all return nil (or return) without any effect and
leave the controller unchanged. -/
theorem cluster_eligibility_gate (n : Network) (c : Controller) (o : Oracle)
    (s : Store) (ep : Endpoint) (hep : ep.network = n) :
    (n.isClusterEligible c = true ↔
      (n.driverScope = Scope.globalScope ∧ c.agent ≠ none))
    ∧ (n.isClusterEligible c = false →
        n.joinCluster c o = (none, []) ∧
        n.leaveCluster c o = (none, []) ∧
        ep.addToCluster c o = (Outcome.ret none, []) ∧
        ep.deleteFromCluster c o = (Outcome.ret none, []) ∧
        n.addDriverWatches c s = (c, []) ∧
        n.cancelDriverWatches c = (c, [])) := by
  constructor
  · constructor
    · intro h
      unfold Network.isClusterEligible at h
      by_cases h1 : n.driverScope = Scope.globalScope
      · by_cases h2 : c.agent = none
        · simp [h1, h2] at h
        · exact ⟨h1, h2⟩
      · simp [h1] at h
    · rintro ⟨h1, h2⟩
      unfold Network.isClusterEligible
      simp [h1, h2]
  · intro h
    refine ⟨?_, ?_, ?_, ?_, ?_, ?_⟩
    · simp [Network.joinCluster, h]
    · simp [Network.leaveCluster, h]
    · simp [Endpoint.addToCluster, hep, h]
    · simp [Endpoint.deleteFromCluster, hep, h]
    · simp [Network.addDriverWatches, h]
    · simp [Network.cancelDriverWatches, h]

/-- Witness for C1 at a concrete ineligible (local-scope, agent-less)
configuration. -/
theorem cluster_eligibility_gate_witness :
    epLocal.network = nLocal ∧
    nLocal.isClusterEligible cNoAgent = false ∧
    (nLocal.joinCluster cNoAgent oOk = (none, []) ∧
     nLocal.leaveCluster cNoAgent oOk = (none, []) ∧
     epLocal.addToCluster cNoAgent oOk = (Outcome.ret none, []) ∧
     epLocal.deleteFromCluster cNoAgent oOk = (Outcome.ret none, []) ∧
     nLocal.addDriverWatches cNoAgent [] = (cNoAgent, []) ∧
     nLocal.cancelDriverWatches cNoAgent = (cNoAgent, [])) :=
  ⟨rfl, rfl,
    (cluster_eligibility_gate nLocal cNoAgent oOk [] epLocal rfl).2 rfl⟩

/-- C10: with a cluster-eligible network and nil join information (and the
earlier collaborator calls succeeding), `addToCluster` reaches the
nil-pointer dereference on `ep.joinInfo.driverTableEntries` and panics,
whereas `deleteFromCluster` never panics (it guards the nil case). -/
theorem addToCluster_nil_joinInfo_panics (ep : Endpoint) (c : Controller) (o : Oracle)
    (hE : ep.network.isClusterEligible c = true)
    (hji : ep.joinInfo = none)
    (hbind : o.addServiceBindingErr = none)
    (hcreate : o.createEntryErr "endpoint_table" ep.network.id ep.id = none) :
    (ep.addToCluster c o).1 = Outcome.panicked
    ∧ ∀ (ep2 : Endpoint) (c2 : Controller) (o2 : Oracle),
        (ep2.deleteFromCluster c2 o2).1 ≠ Outcome.panicked := by
  constructor
  · by_cases hcond : (!ep.anonymous && ep.ifaceAddr.isSome) = true
    · simp [Endpoint.addToCluster, hE, hji, hbind, hcreate, hcond]
    · simp [Endpoint.addToCluster, hE, hji, hcond]
  · intro ep2 c2 o2
    by_cases he : (!(ep2.network.isClusterEligible c2)) = true
    · simp [Endpoint.deleteFromCluster, he]
    · by_cases ha : (!ep2.anonymous) = true
      · by_cases hb :
          ((ep2.svcID != "") && ep2.ifaceAddr.isSome && o2.rmServiceBindingErr.isSome) = true
        · simp [Endpoint.deleteFromCluster, he, ha, hb]
        · cases hd : o2.deleteEntryErr "endpoint_table" ep2.network.id ep2.id with
          | some err => simp [Endpoint.deleteFromCluster, he, ha, hb, hd]
          | none =>
            cases hj : ep2.joinInfo with
            | none => simp [Endpoint.deleteFromCluster, he, ha, hb, hd, hj]
            | some ji => simp [Endpoint.deleteFromCluster, he, ha, hb, hd, hj]
      · cases hj : ep2.joinInfo with
        | none => simp [Endpoint.deleteFromCluster, he, ha, hj]
        | some ji => simp [Endpoint.deleteFromCluster, he, ha, hj]

/-- Witness for C10: a concrete eligible endpoint with nil join
information. -/
theorem addToCluster_nil_joinInfo_panics_witness :
    nGlobal.isClusterEligible cAgent = true ∧
    (({ id := "e9", name := "w", network := nGlobal, anonymous := true,
        svcName := "", svcID := "", virtualIP := none, ingressPorts := [],
        ifaceAddr := none, joinInfo := none } : Endpoint).addToCluster cAgent oOk).1 =
      Outcome.panicked :=
  ⟨rfl,
    (addToCluster_nil_joinInfo_panics
      { id := "e9", name := "w", network := nGlobal, anonymous := true,
        svcName := "", svcID := "", virtualIP := none, ingressPorts := [],
        ifaceAddr := none, joinInfo := none }
      cAgent oOk rfl rfl rfl rfl).1⟩

/-- C9: for a controller configured for clustering, a failing address
resolution or a failing distributed-store startup makes `agentInit` return
that error with the controller unchanged (no agent retained) and no watch
registered. -/
theorem agentInit_failure_no_partial_agent (c : Controller) (env : Env) (s e : String)
    (hcfg : c.cfgAgent = true) :
    (resolveAddr env s = Except.error e →
      c.agentInit env s = (c, some e, []))
    ∧ (∀ a, resolveAddr env s = Except.ok a → env.newDBErr = some e →
      c.agentInit env s = (c, some e, [])) := by
  constructor
  · intro h
    simp [Controller.agentInit, hcfg, h]
  · intro a h1 h2
    simp [Controller.agentInit, hcfg, h1, h2]

/-- Witness for C9: an environment whose interface lookup fails for a
non-IP bind string. -/
theorem agentInit_failure_no_partial_agent_witness :
    ({ cfgAgent := true, agent := none, networks := [] } : Controller).cfgAgent = true ∧
    resolveAddr { interfaces := fun _ => Except.error "no iface", newDBErr := none } "eth0" =
      Except.error "no iface" ∧
    ({ cfgAgent := true, agent := none, networks := [] } : Controller).agentInit
        { interfaces := fun _ => Except.error "no iface", newDBErr := none } "eth0" =
      ({ cfgAgent := true, agent := none, networks := [] }, some "no iface", []) :=
  ⟨rfl, by rfl,
    (agentInit_failure_no_partial_agent
      { cfgAgent := true, agent := none, networks := [] }
      { interfaces := fun _ => Except.error "no iface", newDBErr := none }
      "eth0" "no iface" rfl).1 (by rfl)⟩

/-- No entry with the erased key is findable after erasure. -/
theorem find_mapErase (m : List (String × List Nat)) (k : String) :
    (mapErase m k).find? (fun q => q.1 == k) = none := by
  rw [List.find?_eq_none]
  intro x hx
  rw [mapErase, List.mem_filter] at hx
  have h2 := hx.2
  simp only [bne_iff_ne, ne_eq] at h2
  simp only [beq_iff_eq]
  exact h2

/-- After erasing a key from the cancel-handle map, a lookup of that key
yields the empty handle list. -/
theorem mapGet_mapErase (m : List (String × List Nat)) (k : String) :
    mapGet (mapErase m k) k = [] := by
  simp [mapGet, find_mapErase]

/-- C8: for a cluster-eligible network, `cancelDriverWatches` invokes
exactly the recorded cancellation handles of that network (each once, in
order), leaves the network with zero recorded handles, and returns with an
empty trace when no handles were recorded. -/
theorem cancelDriverWatches_removes_and_invokes (n : Network) (c : Controller) (ag : Agent)
    (hag : c.agent = some ag)
    (hE : n.isClusterEligible c = true) :
    (n.cancelDriverWatches c).2 = (mapGet ag.driverCancelFuncs n.id).map Effect.cancelWatch
    ∧ handlesOf (n.cancelDriverWatches c).1 n.id = []
    ∧ (mapGet ag.driverCancelFuncs n.id = [] → (n.cancelDriverWatches c).2 = []) := by
  refine ⟨?_, ?_, ?_⟩
  · simp [Network.cancelDriverWatches, hE, hag]
  · simp [Network.cancelDriverWatches, hE, hag, handlesOf, mapGet_mapErase]
  · intro h
    simp [Network.cancelDriverWatches, hE, hag, h]

/-- Witness for C8 at a controller recording two handles for the network
and one for another network. -/
theorem cancelDriverWatches_removes_and_invokes_witness :
    ({ cfgAgent := true,
       agent := some { bindAddr := "10.0.0.1",
                       driverCancelFuncs := [("n1", [5, 7]), ("m", [9])],
                       nextToken := 10 },
       networks := [nGlobal] } : Controller).agent =
      some { bindAddr := "10.0.0.1",
             driverCancelFuncs := [("n1", [5, 7]), ("m", [9])], nextToken := 10 } ∧
    nGlobal.isClusterEligible
      { cfgAgent := true,
        agent := some { bindAddr := "10.0.0.1",
                        driverCancelFuncs := [("n1", [5, 7]), ("m", [9])],
                        nextToken := 10 },
        networks := [nGlobal] } = true ∧
    ((nGlobal.cancelDriverWatches
        { cfgAgent := true,
          agent := some { bindAddr := "10.0.0.1",
                          driverCancelFuncs := [("n1", [5, 7]), ("m", [9])],
                          nextToken := 10 },
          networks := [nGlobal] }).2 =
      [Effect.cancelWatch 5, Effect.cancelWatch 7] ∧
     handlesOf (nGlobal.cancelDriverWatches
        { cfgAgent := true,
          agent := some { bindAddr := "10.0.0.1",
                          driverCancelFuncs := [("n1", [5, 7]), ("m", [9])],
                          nextToken := 10 },
          networks := [nGlobal] }).1 nGlobal.id = []) := by
  refine ⟨rfl, rfl, ?_, ?_⟩
  · have h := (cancelDriverWatches_removes_and_invokes nGlobal
      { cfgAgent := true,
        agent := some { bindAddr := "10.0.0.1",
                        driverCancelFuncs := [("n1", [5, 7]), ("m", [9])],
                        nextToken := 10 },
        networks := [nGlobal] }
      { bindAddr := "10.0.0.1", driverCancelFuncs := [("n1", [5, 7]), ("m", [9])],
        nextToken := 10 } rfl rfl).1
    simpa using h
  · exact (cancelDriverWatches_removes_and_invokes nGlobal
      { cfgAgent := true,
        agent := some { bindAddr := "10.0.0.1",
                        driverCancelFuncs := [("n1", [5, 7]), ("m", [9])],
                        nextToken := 10 },
        networks := [nGlobal] }
      { bindAddr := "10.0.0.1", driverCancelFuncs := [("n1", [5, 7]), ("m", [9])],
        nextToken := 10 } rfl rfl).2.1

/-- C6: for a cluster-eligible, non-anonymous endpoint with a resolved
address and a non-empty service id, `addToCluster` calls the service
binding before any store entry creation: on binding failure it returns that
error having performed only the binding call (no endpoint-table and no
driver-table entry), on binding success the trace starts with the binding
call followed by the endpoint-table creation whose serialized record
carries the ingress ports, and the ingress-port list used in both is
non-empty only when the owning network is the ingress network. -/
theorem addToCluster_binding_gates_store (ep : Endpoint) (c : Controller)
    (o ofail : Oracle) (a e : String)
    (hE : ep.network.isClusterEligible c = true)
    (hanon : ep.anonymous = false)
    (haddr : ep.ifaceAddr = some a)
    (hsvc : ep.svcID ≠ "")
    (hfail : ofail.addServiceBindingErr = some e)
    (hok : o.addServiceBindingErr = none) :
    (ep.addToCluster c ofail =
      (Outcome.ret (some e),
        [Effect.addServiceBinding ep.svcName ep.svcID ep.network.id ep.id ep.virtualIP
          (if ep.network.ingress then ep.ingressPorts else []) a]))
    ∧ (∃ tl,
        (ep.addToCluster c o).2 =
          Effect.addServiceBinding ep.svcName ep.svcID ep.network.id ep.id ep.virtualIP
              (if ep.network.ingress then ep.ingressPorts else []) a ::
            Effect.storeCreateEntry "endpoint_table" ep.network.id ep.id
              (protoMarshal
                { Name := ep.name, ServiceName := ep.svcName, ServiceID := ep.svcID,
                  VirtualIP := ipString ep.virtualIP,
                  IngressPorts := if ep.network.ingress then ep.ingressPorts else [],
                  EndpointIP := a }) :: tl)
    ∧ ((if ep.network.ingress then ep.ingressPorts else []) ≠ [] →
        ep.network.ingress = true) := by
  have hsvc' : (ep.svcID != "") = true := by simpa [bne_iff_ne] using hsvc
  refine ⟨?_, ?_, ?_⟩
  · simp [Endpoint.addToCluster, hE, hanon, haddr, hsvc', hfail]
  · rcases hj : ep.joinInfo with _ | ji
    · rcases hc : o.createEntryErr "endpoint_table" ep.network.id ep.id with _ | e2
      · exact ⟨[], by simp [Endpoint.addToCluster, hE, hanon, haddr, hsvc', hok, hc, hj]⟩
      · exact ⟨[], by simp [Endpoint.addToCluster, hE, hanon, haddr, hsvc', hok, hc, hj]⟩
    · rcases hc : o.createEntryErr "endpoint_table" ep.network.id ep.id with _ | e2
      · exact ⟨(createEntriesLoop o ep.network.id ji.driverTableEntries).2,
          by simp [Endpoint.addToCluster, hE, hanon, haddr, hsvc', hok, hc, hj]⟩
      · exact ⟨[], by simp [Endpoint.addToCluster, hE, hanon, haddr, hsvc', hok, hc, hj]⟩
  · intro h
    by_cases hi : ep.network.ingress
    · exact hi
    · simp [hi] at h

/-- Witness for C6 at a concrete service endpoint whose binding call
fails. -/
theorem addToCluster_binding_gates_store_witness :
    nGlobal.isClusterEligible cAgent = true ∧
    ({ id := "e6", name := "db", network := nGlobal, anonymous := false,
       svcName := "dbsvc", svcID := "svc6", virtualIP := some "10.0.0.9",
       ingressPorts := [{ protocol := 6, publishedPort := 80, targetPort := 8080 }],
       ifaceAddr := some "10.0.0.5",
       joinInfo := some { driverTableEntries := [] } } : Endpoint).addToCluster cAgent
        { oOk with addServiceBindingErr := some "bind failed" } =
      (Outcome.ret (some "bind failed"),
        [Effect.addServiceBinding "dbsvc" "svc6" "n1" "e6" (some "10.0.0.9") [] "10.0.0.5"]) := by
  refine ⟨rfl, ?_⟩
  have h := (addToCluster_binding_gates_store
    { id := "e6", name := "db", network := nGlobal, anonymous := false,
      svcName := "dbsvc", svcID := "svc6", virtualIP := some "10.0.0.9",
      ingressPorts := [{ protocol := 6, publishedPort := 80, targetPort := 8080 }],
      ifaceAddr := some "10.0.0.5",
      joinInfo := some { driverTableEntries := [] } }
    cAgent oOk { oOk with addServiceBindingErr := some "bind failed" }
    "10.0.0.5" "bind failed" rfl rfl rfl (by decide) rfl rfl).1
  simpa [nGlobal] using h

/-- A non-anonymous endpoint with nil join information on the eligible
network. -/
def epNoJoinInfo : Endpoint :=
  { id := "e2", name := "web2", network := nGlobal, anonymous := false,
    svcName := "", svcID := "", virtualIP := none, ingressPorts := [],
    ifaceAddr := some "10.0.0.6", joinInfo := none }

/-- Counterexample to C2: a cluster-eligible, non-anonymous endpoint with
nil join information still gets its endpoint-table entry deleted —
`deleteFromCluster` is not a no-op. -/
theorem deleteFromCluster_nilJoinInfo_counterexample :
    epNoJoinInfo.joinInfo = none ∧
    epNoJoinInfo.anonymous = false ∧
    nGlobal.isClusterEligible cAgent = true ∧
    epNoJoinInfo.deleteFromCluster cAgent oOk =
      (Outcome.ret none, [Effect.storeDeleteEntry "endpoint_table" "n1" "e2"]) ∧
    Effect.storeDeleteEntry "endpoint_table" "n1" "e2" ∈
      (epNoJoinInfo.deleteFromCluster cAgent oOk).2 := by
  refine ⟨rfl, rfl, rfl, by decide, by decide⟩

/-- C2 amended: with nil join information, `deleteFromCluster` skips only
the driver-table deletions.  An anonymous endpoint is a full no-op, but a
non-anonymous one still performs the service-binding removal (when a
service id is set and an address is resolved) and the endpoint-table
deletion, then returns nil. -/
theorem deleteFromCluster_nilJoinInfo_skips_driver_tables (ep : Endpoint)
    (c : Controller) (o : Oracle)
    (hE : ep.network.isClusterEligible c = true)
    (hji : ep.joinInfo = none)
    (hrm : o.rmServiceBindingErr = none)
    (hdel : o.deleteEntryErr "endpoint_table" ep.network.id ep.id = none) :
    (ep.anonymous = false →
      ep.deleteFromCluster c o =
        (Outcome.ret none,
          (if (ep.svcID != "") && ep.ifaceAddr.isSome then
            [Effect.rmServiceBinding ep.svcName ep.svcID ep.network.id ep.id ep.virtualIP
              (if ep.network.ingress then ep.ingressPorts else []) (ep.ifaceAddr.getD "")]
           else []) ++
          [Effect.storeDeleteEntry "endpoint_table" ep.network.id ep.id]))
    ∧ (ep.anonymous = true → ep.deleteFromCluster c o = (Outcome.ret none, [])) := by
  constructor
  · intro hanon
    by_cases hb : ((ep.svcID != "") && ep.ifaceAddr.isSome) = true
    · simp [Endpoint.deleteFromCluster, hE, hji, hrm, hdel, hanon, hb]
    · simp [Endpoint.deleteFromCluster, hE, hji, hrm, hdel, hanon, hb]
  · intro hanon
    simp [Endpoint.deleteFromCluster, hE, hji, hanon]

/-- Witness for the amended C2 at the concrete nil-`joinInfo` endpoint. -/
theorem deleteFromCluster_nilJoinInfo_skips_driver_tables_witness :
    nGlobal.isClusterEligible cAgent = true ∧
    epNoJoinInfo.joinInfo = none ∧
    epNoJoinInfo.deleteFromCluster cAgent oOk =
      (Outcome.ret none, [Effect.storeDeleteEntry "endpoint_table" "n1" "e2"]) := by
  refine ⟨rfl, rfl, ?_⟩
  have h := (deleteFromCluster_nilJoinInfo_skips_driver_tables epNoJoinInfo cAgent oOk
    rfl rfl rfl rfl).1 rfl
  simpa [epNoJoinInfo, nGlobal] using h

/-- Counterexample to C4: on an Update endpoint-table event the handler
does perform a network lookup (with the zero-valued network id), because
the Update arm of the type switch falls through. -/
theorem handleEpTableEvent_update_lookup_counterexample :
    Effect.netLookup "" ∈
      cAgent.handleEpTableEvent oOk
        (TableEvent.update "endpoint_table" "nx" "kx" (TableValue.raw [7])) := by
  decide

/-- C4 amended: on an Update endpoint-table event the handler logs an error
and falls through to a network lookup with the empty network id; provided
no network has the empty id, the lookup fails and the event is then dropped
with no payload deserialization, no service-binding call and no name-record
mutation. -/
theorem handleEpTableEvent_update_drops_after_lookup (c : Controller) (o : Oracle)
    (t nid k : String) (v : TableValue)
    (h : ∀ nw ∈ c.networks, nw.id ≠ "") :
    c.handleEpTableEvent o (TableEvent.update t nid k v) =
      [Effect.logError "unexpected-update", Effect.netLookup "",
       Effect.logError "network-not-found"] := by
  have hf : c.networks.find? (fun nw => nw.id == "") = none := by
    rw [List.find?_eq_none]
    intro x hx
    simp only [beq_iff_eq]
    exact h x hx
  simp [Controller.handleEpTableEvent, hf]

/-- Witness for the amended C4 at a concrete Update event. -/
theorem handleEpTableEvent_update_drops_after_lookup_witness :
    (∀ nw ∈ cAgent.networks, nw.id ≠ "") ∧
    cAgent.handleEpTableEvent oOk
        (TableEvent.update "endpoint_table" "nx" "kx" (TableValue.raw [7])) =
      [Effect.logError "unexpected-update", Effect.netLookup "",
       Effect.logError "network-not-found"] :=
  ⟨by decide,
    handleEpTableEvent_update_drops_after_lookup cAgent oOk "endpoint_table" "nx" "kx"
      (TableValue.raw [7]) (by decide)⟩

/-- C7: an endpoint-table event whose payload is malformed (undecodable,
empty name, or unparsable endpoint IP) produces no service-binding call and
no name-record mutation, and the dispatch loop still processes the
subsequent events of the same watch. -/
theorem epTable_malformed_dropped_loop_continues (c : Controller) (o : Oracle)
    (ev : TableEvent) (rest : List TableEvent)
    (hbad : malformedPayload (eventValue ev)) :
    ((c.handleEpTableEvent o ev).all
        (fun eff => !isBindingEffect eff && !isSvcRecordEffect eff) = true)
    ∧ handleTableEvents (c.handleEpTableEvent o) (ev :: rest) =
        c.handleEpTableEvent o ev ++ handleTableEvents (c.handleEpTableEvent o) rest := by
  refine ⟨?_, rfl⟩
  cases ev with
  | update t nid k v =>
    rcases hf : c.networks.find? (fun nw => nw.id == "") with _ | nw
    · simp [Controller.handleEpTableEvent, hf, isBindingEffect, isSvcRecordEffect]
    · simp [Controller.handleEpTableEvent, hf, protoUnmarshal, emptyEndpointRecord,
        isBindingEffect, isSvcRecordEffect]
  | create t nid k v =>
    rcases hf : c.networks.find? (fun nw => nw.id == nid) with _ | nw
    · simp [Controller.handleEpTableEvent, hf, isBindingEffect, isSvcRecordEffect]
    · rcases hbad with hnone | ⟨r, hr, hbadr⟩
      · simp [eventValue] at hnone
        simp [Controller.handleEpTableEvent, hf, hnone, isBindingEffect, isSvcRecordEffect]
      · simp [eventValue] at hr
        rcases hbadr with h1 | h1
        · simp [Controller.handleEpTableEvent, hf, hr, h1, isBindingEffect, isSvcRecordEffect]
        · simp [Controller.handleEpTableEvent, hf, hr, h1, isBindingEffect, isSvcRecordEffect]
  | delete t nid k v =>
    rcases hf : c.networks.find? (fun nw => nw.id == nid) with _ | nw
    · simp [Controller.handleEpTableEvent, hf, isBindingEffect, isSvcRecordEffect]
    · rcases hbad with hnone | ⟨r, hr, hbadr⟩
      · simp [eventValue] at hnone
        simp [Controller.handleEpTableEvent, hf, hnone, isBindingEffect, isSvcRecordEffect]
      · simp [eventValue] at hr
        rcases hbadr with h1 | h1
        · simp [Controller.handleEpTableEvent, hf, hr, h1, isBindingEffect, isSvcRecordEffect]
        · simp [Controller.handleEpTableEvent, hf, hr, h1, isBindingEffect, isSvcRecordEffect]

/-- Witness for C7: a Create event carrying a record with an empty name,
followed by a well-formed event on the same watch. -/
theorem epTable_malformed_dropped_loop_continues_witness :
    malformedPayload (eventValue
      (TableEvent.create "endpoint_table" "n1" "e1"
        (TableValue.epRecordBytes
          { Name := "", ServiceName := "", ServiceID := "", VirtualIP := "",
            IngressPorts := [], EndpointIP := "10.0.0.5" }))) ∧
    ((cAgent.handleEpTableEvent oOk
        (TableEvent.create "endpoint_table" "n1" "e1"
          (TableValue.epRecordBytes
            { Name := "", ServiceName := "", ServiceID := "", VirtualIP := "",
              IngressPorts := [], EndpointIP := "10.0.0.5" }))).all
        (fun eff => !isBindingEffect eff && !isSvcRecordEffect eff) = true)
    ∧ handleTableEvents (cAgent.handleEpTableEvent oOk)
        [TableEvent.create "endpoint_table" "n1" "e1"
          (TableValue.epRecordBytes
            { Name := "", ServiceName := "", ServiceID := "", VirtualIP := "",
              IngressPorts := [], EndpointIP := "10.0.0.5" }),
         TableEvent.create "endpoint_table" "n1" "e1"
          (TableValue.epRecordBytes
            { Name := "web", ServiceName := "", ServiceID := "", VirtualIP := "",
              IngressPorts := [], EndpointIP := "10.0.0.5" })] =
        cAgent.handleEpTableEvent oOk
          (TableEvent.create "endpoint_table" "n1" "e1"
            (TableValue.epRecordBytes
              { Name := "", ServiceName := "", ServiceID := "", VirtualIP := "",
                IngressPorts := [], EndpointIP := "10.0.0.5" })) ++
          handleTableEvents (cAgent.handleEpTableEvent oOk)
            [TableEvent.create "endpoint_table" "n1" "e1"
              (TableValue.epRecordBytes
                { Name := "web", ServiceName := "", ServiceID := "", VirtualIP := "",
                  IngressPorts := [], EndpointIP := "10.0.0.5" })] :=
  ⟨Or.inr ⟨_, rfl, Or.inl rfl⟩,
    (epTable_malformed_dropped_loop_continues cAgent oOk
      (TableEvent.create "endpoint_table" "n1" "e1"
        (TableValue.epRecordBytes
          { Name := "", ServiceName := "", ServiceID := "", VirtualIP := "",
            IngressPorts := [], EndpointIP := "10.0.0.5" }))
      [TableEvent.create "endpoint_table" "n1" "e1"
        (TableValue.epRecordBytes
          { Name := "web", ServiceName := "", ServiceID := "", VirtualIP := "",
            IngressPorts := [], EndpointIP := "10.0.0.5" })]
      (Or.inr ⟨_, rfl, Or.inl rfl⟩)).1,
    (epTable_malformed_dropped_loop_continues cAgent oOk
      (TableEvent.create "endpoint_table" "n1" "e1"
        (TableValue.epRecordBytes
          { Name := "", ServiceName := "", ServiceID := "", VirtualIP := "",
            IngressPorts := [], EndpointIP := "10.0.0.5" }))
      [TableEvent.create "endpoint_table" "n1" "e1"
        (TableValue.epRecordBytes
          { Name := "web", ServiceName := "", ServiceID := "", VirtualIP := "",
            IngressPorts := [], EndpointIP := "10.0.0.5" })]
      (Or.inr ⟨_, rfl, Or.inl rfl⟩)).2⟩

/-- C3 (code behavior at the failing input): for a watching network whose
table contains only an entry owned by a different network, the walk-replay
of `addDriverWatches` still delivers a synthetic Create for that foreign
entry (labelled with the watching network's id), because the walk visitor
ignores the entry's owning network. -/
theorem addDriverWatches_walk_crosses_networks :
    nGlobal.isClusterEligible cAgent = true ∧
    (∀ e ∈ ([{ table := "ovtable", nid := "OTHER", key := "k1",
               value := TableValue.raw [1] }] : Store), e.nid ≠ nGlobal.id) ∧
    Effect.driverNotify EventType.create nGlobal.id "ovtable" "k1" (TableValue.raw [1]) ∈
      (nGlobal.addDriverWatches cAgent
        [{ table := "ovtable", nid := "OTHER", key := "k1",
           value := TableValue.raw [1] }]).2 := by
  refine ⟨rfl, by decide, by decide⟩

/-- Unfolding of `storeApplyAll` on a cons. -/
theorem storeApplyAll_cons (m : StoreMap) (e : Effect) (tr : List Effect) :
    storeApplyAll m (e :: tr) = storeApplyAll (storeApply m e) tr := rfl

/-- Splitting of `storeApplyAll` over an append. -/
theorem storeApplyAll_append (m : StoreMap) (tr1 tr2 : List Effect) :
    storeApplyAll m (tr1 ++ tr2) = storeApplyAll (storeApplyAll m tr1) tr2 := by
  simp [storeApplyAll, List.foldl_append]

/-- An effect that does not create the key preserves its absence. -/
theorem storeApply_not_create (m : StoreMap) (e : Effect) (q : StoreKey)
    (hc : effCreates q e = false) (hm : m q = none) : storeApply m e q = none := by
  cases e with
  | storeCreateEntry t n k v =>
    simp only [effCreates, decide_eq_false_iff_not] at hc
    simp only [storeApply]
    rw [if_neg (fun h => hc h.symm)]
    exact hm
  | storeDeleteEntry t n k =>
    simp only [storeApply]
    by_cases h : q = (t, n, k)
    · simp [h]
    · simp [h, hm]
  | storeJoinNetwork nid => exact hm
  | storeLeaveNetwork nid => exact hm
  | storeWatch t n k => exact hm
  | cancelWatch tok => exact hm
  | addServiceBinding sn si ni ei vi ip a => exact hm
  | rmServiceBinding sn si ni ei vi ip a => exact hm
  | addSvcRecords ni na a => exact hm
  | deleteSvcRecords ni na a => exact hm
  | driverNotify et ni ta ke va => exact hm
  | netLookup ni => exact hm
  | unmarshalPayload va => exact hm
  | logError ta => exact hm

/-- A deletion of the key makes it absent. -/
theorem storeApply_delete_self (m : StoreMap) (e : Effect) (q : StoreKey)
    (hd : effDeletes q e = true) : storeApply m e q = none := by
  cases e with
  | storeDeleteEntry t n k =>
    simp only [effDeletes, decide_eq_true_eq] at hd
    simp only [storeApply]
    rw [if_pos hd.symm]
  | storeCreateEntry t n k v => exact Bool.noConfusion hd
  | storeJoinNetwork nid => exact Bool.noConfusion hd
  | storeLeaveNetwork nid => exact Bool.noConfusion hd
  | storeWatch t n k => exact Bool.noConfusion hd
  | cancelWatch tok => exact Bool.noConfusion hd
  | addServiceBinding sn si ni ei vi ip a => exact Bool.noConfusion hd
  | rmServiceBinding sn si ni ei vi ip a => exact Bool.noConfusion hd
  | addSvcRecords ni na a => exact Bool.noConfusion hd
  | deleteSvcRecords ni na a => exact Bool.noConfusion hd
  | driverNotify et ni ta ke va => exact Bool.noConfusion hd
  | netLookup ni => exact Bool.noConfusion hd
  | unmarshalPayload va => exact Bool.noConfusion hd
  | logError ta => exact Bool.noConfusion hd

/-- A trace without creations of the key preserves its absence. -/
theorem storeApplyAll_no_create (q : StoreKey) :
    ∀ (tr : List Effect), (∀ e ∈ tr, effCreates q e = false) →
      ∀ m : StoreMap, m q = none → storeApplyAll m tr q = none := by
  intro tr
  induction tr with
  | nil => intro _ m hm; exact hm
  | cons e rest ih =>
    intro h m hm
    rw [storeApplyAll_cons]
    exact ih (fun x hx => h x (List.mem_cons_of_mem _ hx)) _
      (storeApply_not_create m e q (h e (List.mem_cons_self _ _)) hm)

/-- A trace containing a deletion of the key and no creation of it leaves
the key absent, whatever the initial store state. -/
theorem storeApplyAll_has_delete (q : StoreKey) :
    ∀ (tr : List Effect), (∀ e ∈ tr, effCreates q e = false) →
      (∃ e ∈ tr, effDeletes q e = true) →
      ∀ m : StoreMap, storeApplyAll m tr q = none := by
  intro tr
  induction tr with
  | nil =>
    intro _ hd m
    rcases hd with ⟨e, he, _⟩
    cases he
  | cons e rest ih =>
    intro h hd m
    rcases hd with ⟨e0, he0, hdel⟩
    rcases List.mem_cons.mp he0 with heq | hmem
    · subst heq
      rw [storeApplyAll_cons]
      exact storeApplyAll_no_create q rest
        (fun x hx => h x (List.mem_cons_of_mem _ hx)) _
        (storeApply_delete_self m e0 q hdel)
    · rw [storeApplyAll_cons]
      exact ih (fun x hx => h x (List.mem_cons_of_mem _ hx)) ⟨e0, hmem, hdel⟩ _

/-- On an all-success oracle the create loop creates one entry per
driver-table entry, in order, and returns nil. -/
theorem createEntriesLoop_success (o : Oracle) (nid : String)
    (h : ∀ t n k, o.createEntryErr t n k = none) :
    ∀ l : List TableEntry, createEntriesLoop o nid l =
      (none, l.map (fun te => Effect.storeCreateEntry te.tableName nid te.key te.value)) := by
  intro l
  induction l with
  | nil => rfl
  | cons te rest ih => simp [createEntriesLoop, h, ih]

/-- On an all-success oracle the delete loop deletes one entry per
driver-table entry, in order, and returns nil. -/
theorem deleteEntriesLoop_success (o : Oracle) (nid : String)
    (h : ∀ t n k, o.deleteEntryErr t n k = none) :
    ∀ l : List TableEntry, deleteEntriesLoop o nid l =
      (none, l.map (fun te => Effect.storeDeleteEntry te.tableName nid te.key)) := by
  intro l
  induction l with
  | nil => rfl
  | cons te rest ih => simp [deleteEntriesLoop, h, ih]

/-- On an all-success oracle, `addToCluster` of an eligible endpoint with
join information returns nil and its trace is the non-driver prefix
followed by one creation per driver-table entry. -/
theorem addToCluster_success_trace (ep : Endpoint) (c : Controller) (o : Oracle)
    (ji : EndpointJoinInfo)
    (hE : ep.network.isClusterEligible c = true)
    (hji : ep.joinInfo = some ji)
    (hbind : o.addServiceBindingErr = none)
    (hcr : ∀ t n k, o.createEntryErr t n k = none) :
    ep.addToCluster c o =
      (Outcome.ret none,
        addHead ep ++
          ji.driverTableEntries.map
            (fun te => Effect.storeCreateEntry te.tableName ep.network.id te.key te.value)) := by
  by_cases hcond : (!ep.anonymous && ep.ifaceAddr.isSome) = true
  · simp [Endpoint.addToCluster, addHead, addBindEff, epTableCreateEff, hE, hji, hbind,
      hcr, hcond, createEntriesLoop_success o ep.network.id hcr]
  · simp [Endpoint.addToCluster, addHead, addBindEff, epTableCreateEff, hE, hji, hbind,
      hcr, hcond, createEntriesLoop_success o ep.network.id hcr]

/-- On an all-success oracle, `deleteFromCluster` of an eligible endpoint
with join information returns nil and its trace is the non-driver prefix
followed by one deletion per driver-table entry. -/
theorem deleteFromCluster_success_trace (ep : Endpoint) (c : Controller) (o : Oracle)
    (ji : EndpointJoinInfo)
    (hE : ep.network.isClusterEligible c = true)
    (hji : ep.joinInfo = some ji)
    (hrm : o.rmServiceBindingErr = none)
    (hdl : ∀ t n k, o.deleteEntryErr t n k = none) :
    ep.deleteFromCluster c o =
      (Outcome.ret none,
        delHead ep ++
          ji.driverTableEntries.map
            (fun te => Effect.storeDeleteEntry te.tableName ep.network.id te.key)) := by
  by_cases ha : (!ep.anonymous) = true
  · by_cases hb : ((ep.svcID != "") && ep.ifaceAddr.isSome) = true
    · simp [Endpoint.deleteFromCluster, delHead, rmBindEff, epTableDeleteEff, hE, hji,
        hrm, ha, hb, hdl, deleteEntriesLoop_success o ep.network.id hdl]
    · simp [Endpoint.deleteFromCluster, delHead, rmBindEff, epTableDeleteEff, hE, hji,
        hrm, ha, hb, hdl, deleteEntriesLoop_success o ep.network.id hdl]
  · simp [Endpoint.deleteFromCluster, delHead, rmBindEff, epTableDeleteEff, hE, hji,
      hrm, ha, hdl, deleteEntriesLoop_success o ep.network.id hdl]

/-- The driver-table deletions create nothing. -/
theorem deletes_map_no_create (q : StoreKey) (nid : String) (l : List TableEntry) :
    ∀ e ∈ l.map (fun te => Effect.storeDeleteEntry te.tableName nid te.key),
      effCreates q e = false := by
  intro e he
  rcases List.mem_map.mp he with ⟨te, _, rfl⟩
  rfl

/-- C5: for a cluster-eligible endpoint with join information present and
all store operations succeeding, publishing (`addToCluster`) and then
retracting (`deleteFromCluster`) leaves the distributed store with no
endpoint-table entry for the endpoint and no entry for any of its
driver-table entries. -/
theorem publish_retract_roundtrip (ep : Endpoint) (c : Controller) (o : Oracle)
    (ji : EndpointJoinInfo) (m0 : StoreMap)
    (hE : ep.network.isClusterEligible c = true)
    (hji : ep.joinInfo = some ji)
    (hbind : o.addServiceBindingErr = none)
    (hrm : o.rmServiceBindingErr = none)
    (hcr : ∀ t n k, o.createEntryErr t n k = none)
    (hdl : ∀ t n k, o.deleteEntryErr t n k = none)
    (hm0 : m0 ("endpoint_table", ep.network.id, ep.id) = none)
    (hres : ∀ te ∈ ji.driverTableEntries, te.tableName ≠ "endpoint_table") :
    storeApplyAll m0 ((ep.addToCluster c o).2 ++ (ep.deleteFromCluster c o).2)
        ("endpoint_table", ep.network.id, ep.id) = none
    ∧ ∀ te ∈ ji.driverTableEntries,
        storeApplyAll m0 ((ep.addToCluster c o).2 ++ (ep.deleteFromCluster c o).2)
          (te.tableName, ep.network.id, te.key) = none := by
  have hA2 : (ep.addToCluster c o).2 =
      addHead ep ++ ji.driverTableEntries.map
        (fun te => Effect.storeCreateEntry te.tableName ep.network.id te.key te.value) := by
    rw [addToCluster_success_trace ep c o ji hE hji hbind hcr]
  have hD2 : (ep.deleteFromCluster c o).2 =
      delHead ep ++ ji.driverTableEntries.map
        (fun te => Effect.storeDeleteEntry te.tableName ep.network.id te.key) := by
    rw [deleteFromCluster_success_trace ep c o ji hE hji hrm hdl]
  have hLc : ∀ e ∈ ji.driverTableEntries.map
      (fun te => Effect.storeCreateEntry te.tableName ep.network.id te.key te.value),
      effCreates ("endpoint_table", ep.network.id, ep.id) e = false := by
    intro e he
    rcases List.mem_map.mp he with ⟨te, hte, rfl⟩
    simp only [effCreates, decide_eq_false_iff_not]
    intro hcontra
    exact hres te hte (congrArg Prod.fst hcontra)
  constructor
  · by_cases ha : ep.anonymous = true
    · have hAH : addHead ep = [] := by simp [addHead, ha]
      have hDH : delHead ep = [] := by simp [delHead, ha]
      rw [hA2, hD2, hAH, hDH]
      simp only [List.nil_append]
      rw [storeApplyAll_append]
      exact storeApplyAll_no_create _ _
        (deletes_map_no_create _ _ _) _
        (storeApplyAll_no_create _ _ hLc m0 hm0)
    · have ha' : ep.anonymous = false := by
        cases h : ep.anonymous
        · rfl
        · exact absurd h ha
      have hDH : delHead ep = rmBindEff ep ++ [epTableDeleteEff ep] := by
        simp [delHead, ha']
      rw [hA2, hD2, hDH]
      have hassoc :
          (addHead ep ++ ji.driverTableEntries.map
            (fun te => Effect.storeCreateEntry te.tableName ep.network.id te.key te.value)) ++
            ((rmBindEff ep ++ [epTableDeleteEff ep]) ++
              ji.driverTableEntries.map
                (fun te => Effect.storeDeleteEntry te.tableName ep.network.id te.key)) =
          ((addHead ep ++ ji.driverTableEntries.map
            (fun te => Effect.storeCreateEntry te.tableName ep.network.id te.key te.value)) ++
            rmBindEff ep) ++
            (epTableDeleteEff ep ::
              ji.driverTableEntries.map
                (fun te => Effect.storeDeleteEntry te.tableName ep.network.id te.key)) := by
        simp [List.append_assoc]
      rw [hassoc, storeApplyAll_append]
      apply storeApplyAll_has_delete
      · intro e he
        rcases List.mem_cons.mp he with rfl | hmem
        · rfl
        · exact deletes_map_no_create _ _ _ e hmem
      · exact ⟨epTableDeleteEff ep, List.mem_cons_self _ _,
          by simp [effDeletes, epTableDeleteEff]⟩
  · intro te hte
    rw [hA2, hD2]
    have hassoc :
        (addHead ep ++ ji.driverTableEntries.map
          (fun te => Effect.storeCreateEntry te.tableName ep.network.id te.key te.value)) ++
          (delHead ep ++
            ji.driverTableEntries.map
              (fun te => Effect.storeDeleteEntry te.tableName ep.network.id te.key)) =
        ((addHead ep ++ ji.driverTableEntries.map
          (fun te => Effect.storeCreateEntry te.tableName ep.network.id te.key te.value)) ++
          delHead ep) ++
          ji.driverTableEntries.map
            (fun te => Effect.storeDeleteEntry te.tableName ep.network.id te.key) := by
      simp [List.append_assoc]
    rw [hassoc, storeApplyAll_append]
    apply storeApplyAll_has_delete
    · exact deletes_map_no_create _ _ _
    · exact ⟨Effect.storeDeleteEntry te.tableName ep.network.id te.key,
        List.mem_map.mpr ⟨te, hte, rfl⟩, by simp [effDeletes]⟩

/-- A publishable endpoint on the eligible network carrying one
driver-table entry. -/
def epPub : Endpoint :=
  { id := "e5", name := "web5", network := nGlobal, anonymous := false,
    svcName := "", svcID := "", virtualIP := none, ingressPorts := [],
    ifaceAddr := some "10.0.0.7",
    joinInfo := some { driverTableEntries :=
      [{ tableName := "ovtable", key := "k1", value := TableValue.raw [1] }] } }

/-- Witness for C5: publish then retract of a concrete endpoint on an
initially empty store leaves both its endpoint-table key and its
driver-table key absent. -/
theorem publish_retract_roundtrip_witness :
    nGlobal.isClusterEligible cAgent = true ∧
    epPub.joinInfo = some { driverTableEntries :=
      [{ tableName := "ovtable", key := "k1", value := TableValue.raw [1] }] } ∧
    storeApplyAll (fun _ => none)
        ((epPub.addToCluster cAgent oOk).2 ++ (epPub.deleteFromCluster cAgent oOk).2)
        ("endpoint_table", "n1", "e5") = none ∧
    storeApplyAll (fun _ => none)
        ((epPub.addToCluster cAgent oOk).2 ++ (epPub.deleteFromCluster cAgent oOk).2)
        ("ovtable", "n1", "k1") = none := by
  have h := publish_retract_roundtrip epPub cAgent oOk
    { driverTableEntries :=
        [{ tableName := "ovtable", key := "k1", value := TableValue.raw [1] }] }
    (fun _ => none) rfl rfl rfl rfl (fun _ _ _ => rfl) (fun _ _ _ => rfl) rfl
    (by decide)
  refine ⟨rfl, rfl, ?_, ?_⟩
  · simpa [epPub, nGlobal] using h.1
  · simpa [epPub, nGlobal] using
      h.2 { tableName := "ovtable", key := "k1", value := TableValue.raw [1] } (by simp)
